import Mathlib

/-!
# Verification of `cmd/web/helpers.go`

A shallow embedding of the HTTP helper layer of the web application
(`serverError`, `clientError`, `notFound`, `render`, `newTemplateData`,
`decodePostForm`, `isAuthenticated`) and the properties its specification
states about them.

The helpers are glue over library calls.  The calls they make on the logger
and on the `http.ResponseWriter` are effects; the embedding returns them as a
chronological list of `Event`s, and `replay` folds the `ResponseWriter` calls
of such a list over a response recorder with the semantics of
`net/http/httptest.ResponseRecorder`.  A helper that writes a status chosen
by its caller (`clientError`, `notFound`, `render`) takes the response `w` it
is handed, because `w.WriteHeader` panics on a code outside 100..999 and the
helper then stops there; its result is a `Run`: the calls made and whether it
panicked.  `serverError` writes the constant 500, which never panics.
-/

namespace LetsGo

/-! ## Go values -/

/-- A Go value of static type `any`, tagged with its dynamic type.  `nil` is
the nil interface; `other` stands for every dynamic type the helpers do not
inspect. -/
inductive GoAny where
  | nil
  | bool (b : Bool)
  | str (s : String)
  | int (n : Int)
  | other (typeName : String) (repr : String)
deriving DecidableEq, Repr

/-- The comma-ok type assertion `v.(bool)`: the asserted value and `ok`. -/
def GoAny.assertBool : GoAny → Bool × Bool
  | .bool b => (b, true)
  | _ => (false, false)

/-- The comma-ok type assertion `v.(string)`: the asserted value and `ok`. -/
def GoAny.assertString : GoAny → String × Bool
  | .str s => (s, true)
  | _ => ("", false)

/-- A non-nil Go `error` value: the text its `Error()` method returns (which
is also what the verb `%s` prints for it), whether `errors.As` accepts the
error itself for a target of type `*form.InvalidDecoderError` (that is its
dynamic type, or its `As` method sets such a target), and the errors its
`Unwrap` method yields (none, one for `Unwrap() error`, several for
`Unwrap() []error`).  A nil error is `none : Option GoError`. -/
inductive GoError where
  | mk (text : String) (isInvalidDecoderError : Bool) (unwrap : List GoError)

/-- The result of `err.Error()`. -/
def GoError.Error : GoError → String
  | .mk text _ _ => text

mutual
/-- The call `errors.As(err, &invalidDecoderError)` with a target of type
`*form.InvalidDecoderError`: the depth-first search of `err`'s tree for an
error of that dynamic type. -/
def errorsAsInvalidDecoderError : GoError → Bool
  | .mk _ b inner => b || errorsAsInvalidDecoderErrorAny inner
/-- The loop of `errors.As` over the result of `Unwrap() []error`. -/
def errorsAsInvalidDecoderErrorAny : List GoError → Bool
  | [] => false
  | e :: es => errorsAsInvalidDecoderError e || errorsAsInvalidDecoderErrorAny es
end

/-! ## `net/http`: status texts, the response writer, `http.Error` -/

/-- The constant `http.StatusInternalServerError`. -/
def http.StatusInternalServerError : Int := 500

/-- The constant `http.StatusNotFound`. -/
def http.StatusNotFound : Int := 404

/-- The function `http.StatusText`: the text of a known status code, and the
empty string for every other code. -/
def http.StatusText : Int → String
  | 100 => "Continue"
  | 101 => "Switching Protocols"
  | 102 => "Processing"
  | 103 => "Early Hints"
  | 200 => "OK"
  | 201 => "Created"
  | 202 => "Accepted"
  | 203 => "Non-Authoritative Information"
  | 204 => "No Content"
  | 205 => "Reset Content"
  | 206 => "Partial Content"
  | 207 => "Multi-Status"
  | 208 => "Already Reported"
  | 226 => "IM Used"
  | 300 => "Multiple Choices"
  | 301 => "Moved Permanently"
  | 302 => "Found"
  | 303 => "See Other"
  | 304 => "Not Modified"
  | 305 => "Use Proxy"
  | 307 => "Temporary Redirect"
  | 308 => "Permanent Redirect"
  | 400 => "Bad Request"
  | 401 => "Unauthorized"
  | 402 => "Payment Required"
  | 403 => "Forbidden"
  | 404 => "Not Found"
  | 405 => "Method Not Allowed"
  | 406 => "Not Acceptable"
  | 407 => "Proxy Authentication Required"
  | 408 => "Request Timeout"
  | 409 => "Conflict"
  | 410 => "Gone"
  | 411 => "Length Required"
  | 412 => "Precondition Failed"
  | 413 => "Request Entity Too Large"
  | 414 => "Request URI Too Long"
  | 415 => "Unsupported Media Type"
  | 416 => "Requested Range Not Satisfiable"
  | 417 => "Expectation Failed"
  | 418 => "I\x27m a teapot"
  | 421 => "Misdirected Request"
  | 422 => "Unprocessable Entity"
  | 423 => "Locked"
  | 424 => "Failed Dependency"
  | 425 => "Too Early"
  | 426 => "Upgrade Required"
  | 428 => "Precondition Required"
  | 429 => "Too Many Requests"
  | 431 => "Request Header Fields Too Large"
  | 451 => "Unavailable For Legal Reasons"
  | 500 => "Internal Server Error"
  | 501 => "Not Implemented"
  | 502 => "Bad Gateway"
  | 503 => "Service Unavailable"
  | 504 => "Gateway Timeout"
  | 505 => "HTTP Version Not Supported"
  | 506 => "Variant Also Negotiates"
  | 507 => "Insufficient Storage"
  | 508 => "Loop Detected"
  | 510 => "Not Extended"
  | 511 => "Network Authentication Required"
  | _ => ""

/-- An observable effect of a helper: a call on `app.logger`, a call on the
`http.ResponseWriter` it was handed (`w.Header().Del`, `w.Header().Set`,
`w.WriteHeader`, `w.Write`), or the execution of a cached template into the
local buffer.  A helper returns its effects in the order it performs them;
a call that panics is the last one made. -/
inductive Event where
  | logError (msg : String) (args : List String)
  | headerDel (key : String)
  | headerSet (key : String) (value : String)
  | writeHeader (code : Int)
  | write (data : String)
  | executeTemplate (page : String) (name : String)
deriving DecidableEq, Repr

/-- Whether the event is a call on the `http.ResponseWriter`. -/
def Event.onResponse : Event → Bool
  | .headerDel _ => true
  | .headerSet _ _ => true
  | .writeHeader _ => true
  | .write _ => true
  | _ => false

/-- Whether the event is a call on the logger. -/
def Event.isLog : Event → Bool
  | .logError _ _ => true
  | _ => false

/-- Whether the event is the execution of a template. -/
def Event.isExecuteTemplate : Event → Bool
  | .executeTemplate _ _ => true
  | _ => false

/-- The function `http.Error(w, error, code)`, as the calls it makes on `w` in
program order when none of them panics: it clears `Content-Length` (since
Go 1.23), sets the plain-text content type and `nosniff`, writes the header
with `code` and prints `error` followed by a newline (`fmt.Fprintln`).
`perform` runs these calls on a response and stops at one that panics. -/
def http.Error (error : String) (code : Int) : List Event :=
  [ .headerDel "Content-Length",
    .headerSet "Content-Type" "text/plain; charset=utf-8",
    .headerSet "X-Content-Type-Options" "nosniff",
    .writeHeader code,
    .write (error ++ "\n") ]

/-- A response under construction, as `httptest.ResponseRecorder` keeps it:
the status code, the header map, the body written so far, and whether the
header has been written. -/
structure ResponseRecorder where
  Code : Int
  HeaderMap : List (String × String)
  Body : String
  wroteHeader : Bool
deriving DecidableEq, Repr

/-- The recorder `httptest.NewRecorder()` returns. -/
def ResponseRecorder.new : ResponseRecorder :=
  { Code := 200, HeaderMap := [], Body := "", wroteHeader := false }

/-- The method `WriteHeader`: ignored once the header is written; a code
outside 100..999 panics (`none`), as `checkWriteHeaderCode` does. -/
def ResponseRecorder.WriteHeader (rw : ResponseRecorder) (code : Int) :
    Option ResponseRecorder :=
  if rw.wroteHeader then some rw
  else if code < 100 ∨ code > 999 then none
  else some { rw with Code := code, wroteHeader := true }

/-- The method `Write`: writes the header with status 200 when it is not yet
written, then appends to the body. -/
def ResponseRecorder.Write (rw : ResponseRecorder) (buf : String) :
    Option ResponseRecorder :=
  (rw.WriteHeader 200).map fun rw1 => { rw1 with Body := rw1.Body ++ buf }

/-- One event applied to the recorder; events that are not calls on the
response writer leave it as it is. -/
def ResponseRecorder.step (rw : ResponseRecorder) : Event → Option ResponseRecorder
  | .headerDel k => some { rw with HeaderMap := rw.HeaderMap.filter fun p => p.1 != k }
  | .headerSet k v =>
      some { rw with HeaderMap := (k, v) :: rw.HeaderMap.filter fun p => p.1 != k }
  | .writeHeader code => rw.WriteHeader code
  | .write data => rw.Write data
  | _ => some rw

/-- The response a list of events leaves in the recorder, `none` when a call
panics. -/
def replay : List Event → ResponseRecorder → Option ResponseRecorder
  | [], rw => some rw
  | e :: es, rw =>
      match rw.step e with
      | none => none
      | some rw1 => replay es rw1

/-- How a helper that can panic in `w.WriteHeader` ends: the calls it made,
the panicking call last, and whether it panicked. -/
structure Run where
  events : List Event
  panicked : Bool
deriving DecidableEq, Repr

/-- A straight-line sequence of calls run on the response `w`: the calls are
made in order until one panics; that call is the last one made. -/
def perform : ResponseRecorder → List Event → Run
  | _, [] => { events := [], panicked := false }
  | w, e :: es =>
      match w.step e with
      | none => { events := [e], panicked := true }
      | some w1 =>
          { events := e :: (perform w1 es).events, panicked := (perform w1 es).panicked }

/-- The status code and the body a list of events leaves in the recorder,
`none` when a call panics. -/
def responseOf (evs : List Event) (rw : ResponseRecorder) : Option (Int × String) :=
  (replay evs rw).map fun rw1 => (rw1.Code, rw1.Body)

/-- Whether `s` occurs in `body` as a contiguous piece of text. -/
def containsText (body s : String) : Prop := s.data <:+: body.data

instance (body s : String) : Decidable (containsText body s) :=
  inferInstanceAs (Decidable (s.data <:+: body.data))

/-! ## The application -/

/-- Modelled from the spec: the per-request view-model `templateData`, whose
declaration is outside this file: current year, one-shot flash message,
authentication flag and CSRF token. -/
structure templateData where
  CurrentYear : Int
  Flash : String
  IsAuthenticated : Bool
  CSRFToken : String
deriving DecidableEq, Repr

/-- A precompiled template set.  `ExecuteTemplate name data` is the text
`ts.ExecuteTemplate(buf, name, data)` writes into `buf` (possibly some output
before a failure) and the error it returns. -/
structure Template where
  ExecuteTemplate : String → templateData → String × Option GoError

/-- The form values `url.Values`. -/
abbrev Values := List (String × List String)

/-- The type `contextKey` of the keys this application stores in a request
context. -/
abbrev contextKey := String

/-- An incoming `*http.Request`, as far as the helpers look at it: method,
`r.URL.RequestURI()`, the values of `r.Context()` (most recent first), the
token `nosurf.Token(r)`, the outcome `r.ParseForm()` will have (its error and
the post form it parses), and the current `r.PostForm`. -/
structure Request where
  Method : String
  RequestURI : String
  Context : List (contextKey × GoAny)
  csrfToken : String
  parseFormErr : Option GoError
  parsedPostForm : Values
  PostForm : Values

/-- The call `r.Context().Value(key)`: the nil interface when the key is
absent. -/
def Request.ContextValue (r : Request) (key : contextKey) : GoAny :=
  (r.Context.lookup key).getD GoAny.nil

/-- The call `r.ParseForm()`: the request afterwards and the error. -/
def Request.ParseForm (r : Request) : Request × Option GoError :=
  ({ r with PostForm := r.parsedPostForm }, r.parseFormErr)

/-- Modelled from the spec: the `application` struct, whose declaration is
outside this file: the debug flag, the read-only template cache keyed by page
name, and the form decoder (`Decode(dst, values)` gives the destination
afterwards and the error).  The logger and the session manager are effects. -/
structure application where
  debug : Bool
  templateCache : List (String × Template)
  formDecoder : GoAny → Values → GoAny × Option GoError

/-! ## The helpers -/

/-- The helper `serverError`.  `stack` is what `debug.Stack()` returns at the
call; `err` is not nil.  The log entry is made first, with the error text as
message and the arguments "method", method, "uri", uri; `trace` is used for
the debug body only.  The status written is the constant 500, so none of its
calls panics on any response (`perform_serverError`). -/
def serverError (app : application) (stack : String) (r : Request) (err : GoError) :
    List Event :=
  let method := r.Method
  let uri := r.RequestURI
  let trace := stack
  Event.logError err.Error ["method", method, "uri", uri] ::
    if app.debug then
      let body := err.Error ++ "\n" ++ trace
      http.Error body http.StatusInternalServerError
    else
      http.Error (http.StatusText http.StatusInternalServerError)
        http.StatusInternalServerError

/-- The helper `clientError` on the response `w`: the calls of
`http.Error(w, http.StatusText(status), status)`, which stops in
`w.WriteHeader(status)`, before the body is printed, when that call panics. -/
def clientError (w : ResponseRecorder) (status : Int) : Run :=
  perform w (http.Error (http.StatusText status) status)

/-- The helper `notFound`. -/
def notFound (w : ResponseRecorder) : Run :=
  clientError w http.StatusNotFound

/-- The error `fmt.Errorf("the template %s does not exist", page)`: a plain
error, wrapping nothing. -/
def templateMissing (page : String) : GoError :=
  .mk ("the template " ++ page ++ " does not exist") false []

/-- The method `(*bytes.Buffer).WriteTo(w)`: one `Write` of the whole buffer,
and no call at all for an empty buffer. -/
def bufWriteTo (buf : String) : List Event :=
  if buf.length > 0 then [.write buf] else []

/-- The helper `render` on the response `w`.  On a cache miss and on a
template error it does what `serverError` does.  Otherwise it calls
`w.WriteHeader(status)`; when that call panics (a status outside 100..999 on
a response whose header is not yet written) `render` stops there and
`buf.WriteTo(w)` is not reached. -/
def render (app : application) (w : ResponseRecorder) (stack : String) (r : Request)
    (status : Int) (page : String) (data : templateData) : Run :=
  match app.templateCache.lookup page with
  | none =>
      let err := templateMissing page
      { events := serverError app stack r err, panicked := false }
  | some ts =>
      match ts.ExecuteTemplate "base" data with
      | (_, some err) =>
          { events := Event.executeTemplate page "base" :: serverError app stack r err,
            panicked := false }
      | (buf, none) =>
          match w.WriteHeader status with
          | none =>
              { events := [Event.executeTemplate page "base", Event.writeHeader status],
                panicked := true }
          | some _ =>
              { events := Event.executeTemplate page "base" :: Event.writeHeader status ::
                  bufWriteTo buf,
                panicked := false }

/-! ## Session data, template data, form decoding, authentication -/

/-- The status of the session data, as the session manager tracks it. -/
inductive SessionStatus where
  | Unmodified
  | Modified
  | Destroyed
deriving DecidableEq, Repr

/-- The session data the session manager keeps in the request context: the
values by key and the status. -/
structure SessionData where
  values : List (String × GoAny)
  status : SessionStatus
deriving DecidableEq, Repr

/-- Whether the session holds a value under `key`. -/
def SessionData.Exists (sd : SessionData) (key : String) : Bool :=
  (sd.values.lookup key).isSome

/-- The method `sessionManager.Pop(ctx, key)`: the nil interface when the key
is absent; otherwise the value, which is deleted, the status becoming
`Modified`. -/
def SessionData.Pop (sd : SessionData) (key : String) : GoAny × SessionData :=
  match sd.values.lookup key with
  | none => (GoAny.nil, sd)
  | some val =>
      (val, { values := sd.values.filter fun p => p.1 != key,
              status := SessionStatus.Modified })

/-- The method `sessionManager.PopString(ctx, key)`: `Pop`, then the type
assertion to `string`, the empty string when it fails. -/
def SessionData.PopString (sd : SessionData) (key : String) : String × SessionData :=
  let (val, sd1) := sd.Pop key
  let (str, ok) := val.assertString
  if !ok then ("", sd1) else (str, sd1)

/-- The helper `isAuthenticated`.  The key `isAuthenticatedContextKey` is a
constant declared outside this file and is taken as a parameter. -/
def isAuthenticated (isAuthenticatedContextKey : contextKey) (r : Request) : Bool :=
  let (isAuthenticated, ok) := (r.ContextValue isAuthenticatedContextKey).assertBool
  if !ok then false else isAuthenticated

/-- The helper `newTemplateData`: the template data and the session data
afterwards.  `year` is `time.Now().Year()` and `sd` the session data of the
request context. -/
def newTemplateData (isAuthenticatedContextKey : contextKey) (year : Int)
    (sd : SessionData) (r : Request) : templateData × SessionData :=
  let (flash, sd1) := sd.PopString "flash"
  ({ CurrentYear := year,
     Flash := flash,
     IsAuthenticated := isAuthenticated isAuthenticatedContextKey r,
     CSRFToken := r.csrfToken }, sd1)

/-- How a call ends: it returns a value or it panics with an error value. -/
inductive Outcome (α : Type) where
  | returned (val : α)
  | panicked (val : GoError)

/-- What `decodePostForm` leaves behind: how it ended (the returned error is
`none` for nil), the request and the destination afterwards, and the calls it
made to the form decoder. -/
structure DecodeResult where
  outcome : Outcome (Option GoError)
  request : Request
  dst : GoAny
  decodeCalls : List (GoAny × Values)

/-- The helper `decodePostForm`. -/
def decodePostForm (app : application) (r : Request) (dst : GoAny) : DecodeResult :=
  match r.ParseForm with
  | (r1, some err) =>
      { outcome := .returned (some err), request := r1, dst := dst, decodeCalls := [] }
  | (r1, none) =>
      match app.formDecoder dst r1.PostForm with
      | (dst1, some err) =>
          if errorsAsInvalidDecoderError err then
            { outcome := .panicked err, request := r1, dst := dst1,
              decodeCalls := [(dst, r1.PostForm)] }
          else
            { outcome := .returned (some err), request := r1, dst := dst1,
              decodeCalls := [(dst, r1.PostForm)] }
      | (dst1, none) =>
          { outcome := .returned none, request := r1, dst := dst1,
            decodeCalls := [(dst, r1.PostForm)] }

/-! ## Sample inputs -/

/-- A request for a snippet page, with no context values and a form that
parses. -/
def sampleRequest : Request :=
  { Method := "GET", RequestURI := "/snippet/view/1", Context := [],
    csrfToken := "tok", parseFormErr := none,
    parsedPostForm := [("title", ["O snail"])], PostForm := [] }

/-- A template that renders a greeting. -/
def homeTemplate : Template :=
  { ExecuteTemplate := fun _ data => ("<h1>Hello</h1>" ++ data.Flash, none) }

/-- A template that fails after it has produced some output. -/
def brokenTemplate : Template :=
  { ExecuteTemplate := fun _ _ =>
      ("<h1>Hel", some (.mk "template: no such field" false [])) }

/-- An application with two cached pages and a decoder that accepts every
destination. -/
def sampleApp (debug : Bool) : application :=
  { debug := debug,
    templateCache := [("home.tmpl", homeTemplate), ("view.tmpl", brokenTemplate)],
    formDecoder := fun dst _ => (dst, none) }

/-- Template data with every field at its zero value. -/
def sampleData : templateData :=
  { CurrentYear := 2024, Flash := "", IsAuthenticated := false, CSRFToken := "" }

/-- A stack trace as `debug.Stack()` formats it. -/
def sampleStack : String := "goroutine 1 [running]:\nruntime/debug.Stack()"

/-- Whether a log entry carries the text `s`: in its message or in one of
its attribute arguments. -/
def Event.logCarries (e : Event) (s : String) : Bool :=
  match e with
  | .logError msg args =>
      decide (containsText msg s) || args.any fun a => decide (containsText a s)
  | _ => false

/-- The error `errors.New(text)`. -/
def errorsNew (text : String) : GoError := .mk text false []

/-- An error is or wraps an invalid-decoder error: its own dynamic type is
`*form.InvalidDecoderError`, or one of the errors it unwraps to is or wraps
one. -/
inductive WrapsInvalidDecoderError : GoError → Prop where
  | here (text : String) (inner : List GoError) :
      WrapsInvalidDecoderError (.mk text true inner)
  | inside (text : String) (b : Bool) (inner : List GoError) (e : GoError) :
      e ∈ inner → WrapsInvalidDecoderError e →
      WrapsInvalidDecoderError (.mk text b inner)

/-- An application whose form decoder leaves the destination as it is and
returns the given error. -/
def decoderApp (result : Option GoError) : application :=
  { debug := false, templateCache := [], formDecoder := fun dst _ => (dst, result) }

/-- The error `form.Decoder.Decode` returns for a destination that is not a
non-nil pointer. -/
def invalidDecoderError : GoError :=
  .mk "form: Decode(non-pointer main.snippetCreateForm)" true []

/-- A request whose form does not parse. -/
def badFormRequest : Request :=
  { sampleRequest with
    Method := "POST",
    parseFormErr := some (errorsNew "invalid semicolon separator in query") }

/-- Session data holding a flash message and the id of the user. -/
def sampleSession : SessionData :=
  { values := [("authenticatedUserID", GoAny.int 7),
               ("flash", GoAny.str "Snippet successfully created!")],
    status := SessionStatus.Unmodified }

/-! ## Lemmas on the response recorder -/

theorem statusInternalServerError_eq : http.StatusInternalServerError = 500 := rfl

theorem statusText_internalServerError :
    http.StatusText http.StatusInternalServerError = "Internal Server Error" := rfl

theorem statusText_500 : http.StatusText 500 = "Internal Server Error" := rfl

theorem statusText_notFound : http.StatusText http.StatusNotFound = "Not Found" := rfl

theorem replay_httpError (rw : ResponseRecorder) (msg : String) (code : Int)
    (hfresh : rw.wroteHeader = false) (hlo : 100 ≤ code) (hhi : code ≤ 999) :
    ∃ rw1, replay (http.Error msg code) rw = some rw1 ∧ rw1.Code = code ∧
      rw1.wroteHeader = true ∧ rw1.Body = rw.Body ++ (msg ++ "\n") := by
  have hcode : ¬ (code < 100 ∨ code > 999) := by omega
  simp [http.Error, replay, ResponseRecorder.step, ResponseRecorder.WriteHeader,
    ResponseRecorder.Write, hfresh, hcode]

theorem replay_logError (msg : String) (args : List String) (es : List Event)
    (rw : ResponseRecorder) :
    replay (Event.logError msg args :: es) rw = replay es rw := by
  simp [replay, ResponseRecorder.step]

theorem replay_executeTemplate (page name : String) (es : List Event)
    (rw : ResponseRecorder) :
    replay (Event.executeTemplate page name :: es) rw = replay es rw := by
  simp [replay, ResponseRecorder.step]

theorem replay_serverError (app : application) (stack : String) (r : Request)
    (err : GoError) (rw : ResponseRecorder) (hfresh : rw.wroteHeader = false) :
    ∃ rw1, replay (serverError app stack r err) rw = some rw1 ∧ rw1.Code = 500 ∧
      rw1.wroteHeader = true ∧
      rw1.Body = rw.Body ++
        ((if app.debug then err.Error ++ "\n" ++ stack else "Internal Server Error")
          ++ "\n") := by
  unfold serverError
  simp only [replay_logError, statusText_internalServerError, statusInternalServerError_eq]
  cases hd : app.debug
  · simpa using
      replay_httpError rw "Internal Server Error" 500 hfresh (by decide) (by decide)
  · simpa using
      replay_httpError rw (err.Error ++ "\n" ++ stack) 500 hfresh (by decide) (by decide)

theorem responseOf_httpError (rw : ResponseRecorder) (msg : String) (code : Int)
    (hfresh : rw.wroteHeader = false) (hlo : 100 ≤ code) (hhi : code ≤ 999) :
    responseOf (http.Error msg code) rw = some (code, rw.Body ++ (msg ++ "\n")) := by
  obtain ⟨rw1, h1, h2, _, h4⟩ := replay_httpError rw msg code hfresh hlo hhi
  simp [responseOf, h1, h2, h4]

theorem responseOf_serverError (app : application) (stack : String) (r : Request)
    (err : GoError) (rw : ResponseRecorder) (hfresh : rw.wroteHeader = false) :
    responseOf (serverError app stack r err) rw
      = some (500, rw.Body ++
          ((if app.debug then err.Error ++ "\n" ++ stack else "Internal Server Error")
            ++ "\n")) := by
  obtain ⟨rw1, h1, h2, _, h4⟩ := replay_serverError app stack r err rw hfresh
  simp [responseOf, h1, h2, h4]

theorem serverError_trace (app : application) (stack : String) (r : Request)
    (err : GoError) :
    serverError app stack r err =
      [ Event.logError err.Error ["method", r.Method, "uri", r.RequestURI],
        Event.headerDel "Content-Length",
        Event.headerSet "Content-Type" "text/plain; charset=utf-8",
        Event.headerSet "X-Content-Type-Options" "nosniff",
        Event.writeHeader 500,
        Event.write ((if app.debug then err.Error ++ "\n" ++ stack
          else "Internal Server Error") ++ "\n") ] := by
  unfold serverError
  simp only [statusInternalServerError_eq, statusText_500, http.Error]
  cases app.debug <;> simp

theorem perform_serverError (app : application) (stack : String) (r : Request)
    (err : GoError) (w : ResponseRecorder) :
    perform w (serverError app stack r err)
      = { events := serverError app stack r err, panicked := false } := by
  rw [serverError_trace]
  cases hw : w.wroteHeader <;>
    simp [perform, ResponseRecorder.step, ResponseRecorder.WriteHeader,
      ResponseRecorder.Write, hw]

theorem perform_httpError_valid (w : ResponseRecorder) (msg : String) (code : Int)
    (hlo : 100 ≤ code) (hhi : code ≤ 999) :
    perform w (http.Error msg code)
      = { events := http.Error msg code, panicked := false } := by
  have hcode : ¬ (code < 100 ∨ code > 999) := by omega
  cases hw : w.wroteHeader <;>
    simp [http.Error, perform, ResponseRecorder.step, ResponseRecorder.WriteHeader,
      ResponseRecorder.Write, hw, hcode]

theorem perform_httpError_invalid (w : ResponseRecorder) (msg : String) (code : Int)
    (hfresh : w.wroteHeader = false) (hbad : code < 100 ∨ 999 < code) :
    perform w (http.Error msg code)
      = { events := [ Event.headerDel "Content-Length",
                      Event.headerSet "Content-Type" "text/plain; charset=utf-8",
                      Event.headerSet "X-Content-Type-Options" "nosniff",
                      Event.writeHeader code ],
          panicked := true } := by
  have hcode : code < 100 ∨ code > 999 := by omega
  simp [http.Error, perform, ResponseRecorder.step, ResponseRecorder.WriteHeader,
    hfresh, hcode]

/-! ## Lemmas on maps and on `errors.As` -/

theorem lookup_filter_self (key : String) (l : List (String × GoAny)) :
    (l.filter fun p => p.1 != key).lookup key = none := by
  induction l with
  | nil => rfl
  | cons p l ih =>
    obtain ⟨k, v⟩ := p
    rw [List.filter_cons]
    by_cases hk : k = key
    · have hp : ((k, v).1 != key) = false := by simp [hk]
      simp only [hp, Bool.false_eq_true, if_false]
      exact ih
    · have hp : ((k, v).1 != key) = true := by simp [hk]
      have hne : (key == k) = false := by simpa using fun h => hk h.symm
      simp only [hp, if_true, List.lookup, hne]
      exact ih

theorem lookup_filter_other (key k2 : String) (hne : k2 ≠ key)
    (l : List (String × GoAny)) :
    (l.filter fun p => p.1 != key).lookup k2 = l.lookup k2 := by
  induction l with
  | nil => rfl
  | cons p l ih =>
    obtain ⟨k, v⟩ := p
    rw [List.filter_cons]
    by_cases hk : k = key
    · have hp : ((k, v).1 != key) = false := by simp [hk]
      have h2 : (k2 == k) = false := by simpa [hk] using hne
      simp only [hp, Bool.false_eq_true, if_false, List.lookup, h2]
      exact ih
    · have hp : ((k, v).1 != key) = true := by simp [hk]
      simp only [hp, if_true]
      by_cases hk2 : k2 = k
      · have h2 : (k2 == k) = true := by simpa using hk2
        simp only [List.lookup, h2]
      · have h2 : (k2 == k) = false := by simpa using hk2
        simp only [List.lookup, h2]
        exact ih

theorem errorsAsAny_of_mem (e : GoError) (es : List GoError) (hmem : e ∈ es)
    (he : errorsAsInvalidDecoderError e = true) :
    errorsAsInvalidDecoderErrorAny es = true := by
  induction es with
  | nil => cases hmem
  | cons x xs ih =>
    rcases List.mem_cons.mp hmem with h | h
    · subst h
      simp [errorsAsInvalidDecoderErrorAny, he]
    · simp [errorsAsInvalidDecoderErrorAny, ih h]

theorem errorsAs_of_wraps (e : GoError) (h : WrapsInvalidDecoderError e) :
    errorsAsInvalidDecoderError e = true := by
  induction h with
  | here text inner => simp [errorsAsInvalidDecoderError]
  | inside text b inner e hmem _ ih =>
    simp [errorsAsInvalidDecoderError, errorsAsAny_of_mem e inner hmem ih]

mutual
theorem wraps_of_errorsAs : ∀ (e : GoError),
    errorsAsInvalidDecoderError e = true → WrapsInvalidDecoderError e
  | .mk text b inner => fun h => by
    cases b with
    | true => exact WrapsInvalidDecoderError.here text inner
    | false =>
      have h2 : errorsAsInvalidDecoderErrorAny inner = true := by
        simpa [errorsAsInvalidDecoderError] using h
      obtain ⟨e, hmem, hw⟩ := wraps_of_errorsAsAny inner h2
      exact WrapsInvalidDecoderError.inside text false inner e hmem hw
theorem wraps_of_errorsAsAny : ∀ (es : List GoError),
    errorsAsInvalidDecoderErrorAny es = true → ∃ e ∈ es, WrapsInvalidDecoderError e
  | [] => fun h => by simp [errorsAsInvalidDecoderErrorAny] at h
  | x :: xs => fun h => by
    by_cases hx : errorsAsInvalidDecoderError x = true
    · exact ⟨x, List.mem_cons_self x xs, wraps_of_errorsAs x hx⟩
    · have h2 : errorsAsInvalidDecoderErrorAny xs = true := by
        simpa [errorsAsInvalidDecoderErrorAny, hx] using h
      obtain ⟨e, hmem, hw⟩ := wraps_of_errorsAsAny xs h2
      exact ⟨e, List.mem_cons_of_mem x hmem, hw⟩
end

theorem errorsAs_iff_wraps (e : GoError) :
    errorsAsInvalidDecoderError e = true ↔ WrapsInvalidDecoderError e :=
  ⟨wraps_of_errorsAs e, errorsAs_of_wraps e⟩

/-! ## The claims -/

/-- C1: when the page is not a key of the template cache, `render` does
exactly what `serverError` does with the missing-template error and does not
panic: no template is executed, the only header written has code 500, the
only body written is the one `serverError` produces, the caller's status and
data have no influence, and a response whose header was not yet written ends
with status 500 and that body. -/
theorem render_missing_page (app : application) (w : ResponseRecorder) (stack : String)
    (r : Request) (status : Int) (page : String) (data : templateData)
    (hmiss : app.templateCache.lookup page = none) :
    render app w stack r status page data
      = { events := serverError app stack r (templateMissing page), panicked := false }
    ∧ (∀ e ∈ (render app w stack r status page data).events, e.isExecuteTemplate = false)
    ∧ (∀ code, Event.writeHeader code ∈ (render app w stack r status page data).events →
        code = 500)
    ∧ (∀ d, Event.write d ∈ (render app w stack r status page data).events →
        d = (if app.debug then (templateMissing page).Error ++ "\n" ++ stack
              else "Internal Server Error") ++ "\n")
    ∧ (∀ w2 status2 data2,
        render app w2 stack r status2 page data2 = render app w stack r status page data)
    ∧ (∀ rw : ResponseRecorder, rw.wroteHeader = false →
        responseOf (render app w stack r status page data).events rw
          = some (500, rw.Body ++
              ((if app.debug then (templateMissing page).Error ++ "\n" ++ stack
                else "Internal Server Error") ++ "\n"))) := by
  have hr : ∀ w0 st dt, render app w0 stack r st page dt
      = { events := serverError app stack r (templateMissing page),
          panicked := false } := by
    intro w0 st dt
    simp [render, hmiss]
  refine ⟨hr _ _ _, ?_, ?_, ?_, ?_, ?_⟩
  · intro e he
    rw [hr, serverError_trace] at he
    simp at he
    rcases he with h | h | h | h | h | h <;> subst h <;> rfl
  · intro code hc
    rw [hr, serverError_trace] at hc
    simpa using hc
  · intro d hd
    rw [hr, serverError_trace] at hd
    simpa using hd
  · intro w0 st dt
    rw [hr, hr]
  · intro rw hfresh
    rw [hr]
    exact responseOf_serverError app stack r (templateMissing page) rw hfresh

theorem render_missing_page_witness :
    (sampleApp false).templateCache.lookup "nope.tmpl" = none ∧
    responseOf
        (render (sampleApp false) ResponseRecorder.new sampleStack sampleRequest 200
          "nope.tmpl" sampleData).events
        ResponseRecorder.new
      = some (500, "Internal Server Error\n") ∧
    render (sampleApp false) ResponseRecorder.new sampleStack sampleRequest 200
        "nope.tmpl" sampleData
      = { events := serverError (sampleApp false) sampleStack sampleRequest
            (templateMissing "nope.tmpl"),
          panicked := false } :=
  ⟨rfl,
    (render_missing_page (sampleApp false) ResponseRecorder.new sampleStack sampleRequest
      200 "nope.tmpl" sampleData rfl).2.2.2.2.2 ResponseRecorder.new rfl,
    (render_missing_page (sampleApp false) ResponseRecorder.new sampleStack sampleRequest
      200 "nope.tmpl" sampleData rfl).1⟩

/-- C8: when the page is cached and executing its "base" template fails,
`render` hands that error to `serverError` and does not panic: the only
header written has code 500, the only body written is the one `serverError`
produces from the error, the trace does not depend on the caller's status nor
on what the template had put into the buffer, and a response whose header was
not yet written ends with status 500 and that body. -/
theorem render_execute_failure (app : application) (w : ResponseRecorder)
    (stack : String) (r : Request)
    (status : Int) (page : String) (data : templateData) (ts : Template)
    (out : String) (err : GoError)
    (hpage : app.templateCache.lookup page = some ts)
    (hfail : ts.ExecuteTemplate "base" data = (out, some err)) :
    render app w stack r status page data
      = { events := Event.executeTemplate page "base" :: serverError app stack r err,
          panicked := false }
    ∧ (∀ code, Event.writeHeader code ∈ (render app w stack r status page data).events →
        code = 500)
    ∧ (∀ d, Event.write d ∈ (render app w stack r status page data).events →
        d = (if app.debug then err.Error ++ "\n" ++ stack
              else "Internal Server Error") ++ "\n")
    ∧ (∀ w2 status2,
        render app w2 stack r status2 page data = render app w stack r status page data)
    ∧ (∀ (app2 : application) (ts2 : Template) (out2 : String),
        app2.debug = app.debug → app2.templateCache.lookup page = some ts2 →
        ts2.ExecuteTemplate "base" data = (out2, some err) →
        render app2 w stack r status page data = render app w stack r status page data)
    ∧ (∀ rw : ResponseRecorder, rw.wroteHeader = false →
        responseOf (render app w stack r status page data).events rw
          = some (500, rw.Body ++
              ((if app.debug then err.Error ++ "\n" ++ stack
                else "Internal Server Error") ++ "\n"))) := by
  have hr : ∀ w0 st, render app w0 stack r st page data
      = { events := Event.executeTemplate page "base" :: serverError app stack r err,
          panicked := false } := by
    intro w0 st
    simp [render, hpage, hfail]
  refine ⟨hr _ _, ?_, ?_, ?_, ?_, ?_⟩
  · intro code hc
    rw [hr, serverError_trace] at hc
    simpa using hc
  · intro d hd
    rw [hr, serverError_trace] at hd
    simpa using hd
  · intro w0 st
    rw [hr, hr]
  · intro app2 ts2 out2 hdebug hpage2 hfail2
    have hr2 : render app2 w stack r status page data
        = { events := Event.executeTemplate page "base" :: serverError app2 stack r err,
            panicked := false } := by
      simp [render, hpage2, hfail2]
    rw [hr, hr2, serverError_trace, serverError_trace, hdebug]
  · intro rw hfresh
    rw [hr]
    unfold responseOf
    rw [replay_executeTemplate]
    exact responseOf_serverError app stack r err rw hfresh

theorem render_execute_failure_witness :
    responseOf
        (render (sampleApp true) ResponseRecorder.new sampleStack sampleRequest 200
          "view.tmpl" sampleData).events
        ResponseRecorder.new
      = some (500,
          "template: no such field\ngoroutine 1 [running]:\nruntime/debug.Stack()\n") ∧
    render (sampleApp true) ResponseRecorder.new sampleStack sampleRequest 200
        "view.tmpl" sampleData
      = { events := Event.executeTemplate "view.tmpl" "base" ::
            serverError (sampleApp true) sampleStack sampleRequest
              (.mk "template: no such field" false []),
          panicked := false } :=
  ⟨(render_execute_failure (sampleApp true) ResponseRecorder.new sampleStack
      sampleRequest 200 "view.tmpl"
      sampleData brokenTemplate "<h1>Hel" (.mk "template: no such field" false [])
      rfl rfl).2.2.2.2.2 ResponseRecorder.new rfl,
    (render_execute_failure (sampleApp true) ResponseRecorder.new sampleStack
      sampleRequest 200 "view.tmpl"
      sampleData brokenTemplate "<h1>Hel" (.mk "template: no such field" false [])
      rfl rfl).1⟩

/-- C9, as the claim states it, fails: the page is cached and its template
executes without error, but with the caller's status 0 (and likewise 1000)
`w.WriteHeader` panics on a response whose header is not yet written:
`render` stops there, no body is written and no response results. -/
theorem render_success_invalid_status_panics :
    render (sampleApp false) ResponseRecorder.new sampleStack sampleRequest 0
        "home.tmpl" sampleData
      = { events := [Event.executeTemplate "home.tmpl" "base", Event.writeHeader 0],
          panicked := true }
    ∧ responseOf
        (render (sampleApp false) ResponseRecorder.new sampleStack sampleRequest 0
          "home.tmpl" sampleData).events ResponseRecorder.new = none
    ∧ render (sampleApp false) ResponseRecorder.new sampleStack sampleRequest 1000
        "home.tmpl" sampleData
      = { events := [Event.executeTemplate "home.tmpl" "base", Event.writeHeader 1000],
          panicked := true } := by
  decide

/-- C9, amended: when the page is cached and its "base" template executes
without error, `render` makes no log entry, writes no header code other than
the caller's status and no body other than the template's output; for a
status in 100..999 it does not panic: it executes the template, then writes
the caller's status as the header and then the template's output as the body
(no write for an empty output), and a response whose header was not yet
written ends with that status and that body.  For a status outside 100..999
on such a response it panics in `WriteHeader` before any body is written. -/
theorem render_success (app : application) (w : ResponseRecorder) (stack : String)
    (r : Request) (status : Int) (page : String) (data : templateData) (ts : Template)
    (out : String)
    (hpage : app.templateCache.lookup page = some ts)
    (hok : ts.ExecuteTemplate "base" data = (out, none)) :
    (∀ e ∈ (render app w stack r status page data).events, e.isLog = false)
    ∧ (∀ code, Event.writeHeader code ∈ (render app w stack r status page data).events →
        code = status)
    ∧ (∀ d, Event.write d ∈ (render app w stack r status page data).events → d = out)
    ∧ (100 ≤ status → status ≤ 999 →
        render app w stack r status page data
          = { events := Event.executeTemplate page "base" :: Event.writeHeader status ::
                bufWriteTo out,
              panicked := false }
        ∧ (w.wroteHeader = false →
            replay (render app w stack r status page data).events w
              = some { w with Code := status, wroteHeader := true,
                              Body := w.Body ++ out }))
    ∧ (w.wroteHeader = false → (status < 100 ∨ 999 < status) →
        render app w stack r status page data
          = { events := [Event.executeTemplate page "base", Event.writeHeader status],
              panicked := true }) := by
  have hmem : ∀ e ∈ (render app w stack r status page data).events,
      e = Event.executeTemplate page "base" ∨ e = Event.writeHeader status ∨
        e = Event.write out := by
    intro e he
    simp only [render, hpage, hok] at he
    cases hwh : w.WriteHeader status with
    | none =>
      simp only [hwh, List.mem_cons, List.mem_singleton, List.not_mem_nil, or_false] at he
      rcases he with h | h
      · exact Or.inl h
      · exact Or.inr (Or.inl h)
    | some w1 =>
      simp only [hwh, List.mem_cons] at he
      rcases he with h | h | h
      · exact Or.inl h
      · exact Or.inr (Or.inl h)
      · unfold bufWriteTo at h
        split at h
        · exact Or.inr (Or.inr (List.mem_singleton.mp h))
        · cases h
  refine ⟨?_, ?_, ?_, ?_, ?_⟩
  · intro e he
    rcases hmem e he with h | h | h <;> subst h <;> rfl
  · intro code hc
    rcases hmem _ hc with h | h | h
    · cases h
    · injection h
    · cases h
  · intro d hd
    rcases hmem _ hd with h | h | h
    · cases h
    · cases h
    · injection h
  · intro hlo hhi
    have hcode : ¬ (status < 100 ∨ status > 999) := by omega
    have hr : render app w stack r status page data
        = { events := Event.executeTemplate page "base" :: Event.writeHeader status ::
              bufWriteTo out,
            panicked := false } := by
      cases hw : w.wroteHeader <;>
        simp [render, hpage, hok, ResponseRecorder.WriteHeader, hw, hcode]
    refine ⟨hr, ?_⟩
    intro hfresh
    rw [hr]
    simp only [replay_executeTemplate]
    unfold bufWriteTo
    split
    · simp [replay, ResponseRecorder.step, ResponseRecorder.WriteHeader,
        ResponseRecorder.Write, hfresh, hcode]
    · rename_i hlen
      have hempty : out = "" := by
        have h0 : out.length = 0 := by omega
        exact String.ext (List.length_eq_zero.mp h0)
      simp [replay, ResponseRecorder.step, ResponseRecorder.WriteHeader, hfresh, hcode,
        hempty]
  · intro hfresh hbad
    have hcode : status < 100 ∨ status > 999 := by omega
    simp [render, hpage, hok, ResponseRecorder.WriteHeader, hfresh, hcode]

theorem render_success_witness :
    render (sampleApp false) ResponseRecorder.new sampleStack sampleRequest 201
        "home.tmpl" sampleData
      = { events := [Event.executeTemplate "home.tmpl" "base", Event.writeHeader 201,
            Event.write "<h1>Hello</h1>"],
          panicked := false }
    ∧ replay
        (render (sampleApp false) ResponseRecorder.new sampleStack sampleRequest 201
          "home.tmpl" sampleData).events ResponseRecorder.new
      = some { Code := 201, HeaderMap := [], Body := "<h1>Hello</h1>",
               wroteHeader := true }
    ∧ render (sampleApp false) ResponseRecorder.new sampleStack sampleRequest 1000
        "home.tmpl" sampleData
      = { events := [Event.executeTemplate "home.tmpl" "base", Event.writeHeader 1000],
          panicked := true } :=
  ⟨((render_success (sampleApp false) ResponseRecorder.new sampleStack sampleRequest 201
      "home.tmpl" sampleData homeTemplate "<h1>Hello</h1>" rfl rfl).2.2.2.1
      (by decide) (by decide)).1,
    ((render_success (sampleApp false) ResponseRecorder.new sampleStack sampleRequest 201
      "home.tmpl" sampleData homeTemplate "<h1>Hello</h1>" rfl rfl).2.2.2.1
      (by decide) (by decide)).2 rfl,
    (render_success (sampleApp false) ResponseRecorder.new sampleStack sampleRequest 1000
      "home.tmpl" sampleData homeTemplate "<h1>Hello</h1>" rfl rfl).2.2.2.2
      rfl (by decide)⟩

/-- C7, as the claim states it, fails: with status 0 (and likewise 1000 and
-1) `clientError` panics in `w.WriteHeader` on a response whose header is not
yet written: the error headers are set, no body is written and no response
results. -/
theorem clientError_invalid_status_panics :
    clientError ResponseRecorder.new 0
      = { events := [ Event.headerDel "Content-Length",
                      Event.headerSet "Content-Type" "text/plain; charset=utf-8",
                      Event.headerSet "X-Content-Type-Options" "nosniff",
                      Event.writeHeader 0 ],
          panicked := true }
    ∧ responseOf (clientError ResponseRecorder.new 0).events ResponseRecorder.new = none
    ∧ (clientError ResponseRecorder.new 1000).panicked = true
    ∧ (clientError ResponseRecorder.new (-1)).panicked = true := by
  decide

/-- C7, amended: for every status in 100..999, `clientError` does not panic:
it sets the error headers, writes the header with that status and then the
standard status text of that status as the body line (`http.Error` ends it
with a newline), and a response whose header was not yet written ends with
that status and that body; `notFound` is `clientError` with status 404,
giving 404 and "Not Found".  For a status outside 100..999 on such a response
`clientError` panics in `WriteHeader` before any body is written. -/
theorem clientError_response (w : ResponseRecorder) (status : Int) :
    (100 ≤ status → status ≤ 999 →
      clientError w status
        = { events := [ Event.headerDel "Content-Length",
                        Event.headerSet "Content-Type" "text/plain; charset=utf-8",
                        Event.headerSet "X-Content-Type-Options" "nosniff",
                        Event.writeHeader status,
                        Event.write (http.StatusText status ++ "\n") ],
            panicked := false }
      ∧ (w.wroteHeader = false →
          responseOf (clientError w status).events w
            = some (status, w.Body ++ (http.StatusText status ++ "\n"))))
    ∧ (w.wroteHeader = false → (status < 100 ∨ 999 < status) →
        clientError w status
          = { events := [ Event.headerDel "Content-Length",
                          Event.headerSet "Content-Type" "text/plain; charset=utf-8",
                          Event.headerSet "X-Content-Type-Options" "nosniff",
                          Event.writeHeader status ],
              panicked := true })
    ∧ notFound w = clientError w 404
    ∧ (w.wroteHeader = false →
        responseOf (notFound w).events w = some (404, w.Body ++ "Not Found\n")) := by
  refine ⟨?_, ?_, rfl, ?_⟩
  · intro hlo hhi
    have hr : clientError w status
        = { events := http.Error (http.StatusText status) status, panicked := false } :=
      perform_httpError_valid w (http.StatusText status) status hlo hhi
    refine ⟨hr, ?_⟩
    intro hfresh
    rw [hr]
    exact responseOf_httpError w (http.StatusText status) status hfresh hlo hhi
  · intro hfresh hbad
    exact perform_httpError_invalid w (http.StatusText status) status hfresh hbad
  · intro hfresh
    have hr : notFound w
        = { events := http.Error (http.StatusText 404) 404, panicked := false } :=
      perform_httpError_valid w (http.StatusText 404) 404 (by decide) (by decide)
    rw [hr]
    exact responseOf_httpError w "Not Found" 404 hfresh (by decide) (by decide)

theorem clientError_response_witness :
    responseOf (clientError ResponseRecorder.new 400).events ResponseRecorder.new
      = some (400, "Bad Request\n")
    ∧ responseOf (notFound ResponseRecorder.new).events ResponseRecorder.new
      = some (404, "Not Found\n")
    ∧ (clientError ResponseRecorder.new 42).panicked = true :=
  ⟨((clientError_response ResponseRecorder.new 400).1 (by decide) (by decide)).2 rfl,
    (clientError_response ResponseRecorder.new 400).2.2.2 rfl,
    congrArg Run.panicked
      ((clientError_response ResponseRecorder.new 42).2.1 rfl (by decide))⟩

/-- C2, as the claim states it, fails: with the debug flag off and an error
whose text is "Internal Server Error", the response body
"Internal Server Error\n" contains the error's text. -/
theorem serverError_generic_body_contains_err_text :
    (sampleApp false).debug = false ∧
    responseOf (serverError (sampleApp false) sampleStack sampleRequest
        (errorsNew "Internal Server Error")) ResponseRecorder.new
      = some (500, "Internal Server Error\n") ∧
    containsText "Internal Server Error\n" (errorsNew "Internal Server Error").Error := by
  decide

/-- C2, amended: with the debug flag on, the response body is the error's
text, a newline, the stack trace and a newline, so it contains the error's
text; with the debug flag off, the response is the generic status text line
for 500 and is the same whatever the error is, so the body does not contain
the error's text unless that text already occurs in the generic line (or in
what had been written before). -/
theorem serverError_body_by_debug (app : application) (stack : String) (r : Request)
    (err : GoError) (rw : ResponseRecorder) (hfresh : rw.wroteHeader = false) :
    (app.debug = true →
      responseOf (serverError app stack r err) rw
        = some (500, rw.Body ++ (err.Error ++ "\n" ++ stack ++ "\n"))
      ∧ containsText (rw.Body ++ (err.Error ++ "\n" ++ stack ++ "\n")) err.Error)
    ∧ (app.debug = false →
      responseOf (serverError app stack r err) rw
        = some (500, rw.Body ++ "Internal Server Error\n")
      ∧ (∀ err2, replay (serverError app stack r err2) rw
          = replay (serverError app stack r err) rw)
      ∧ (¬ containsText (rw.Body ++ "Internal Server Error\n") err.Error →
          ∀ code body, responseOf (serverError app stack r err) rw = some (code, body) →
            ¬ containsText body err.Error)) := by
  have hresp := responseOf_serverError app stack r err rw hfresh
  refine ⟨?_, ?_⟩
  · intro hd
    refine ⟨?_, ?_⟩
    · rw [hresp, hd]; rfl
    · exact ⟨rw.Body.data, ("\n" ++ stack ++ "\n").data, by
        simp [String.data_append, List.append_assoc]⟩
  · intro hd
    have hb : responseOf (serverError app stack r err) rw
        = some (500, rw.Body ++ "Internal Server Error\n") := by
      rw [hresp, hd]; rfl
    refine ⟨hb, ?_, ?_⟩
    · intro err2
      rw [serverError_trace, serverError_trace, hd]
      simp [replay_logError]
    · intro hn code body hcb
      rw [hb] at hcb
      simp only [Option.some.injEq, Prod.mk.injEq] at hcb
      rw [← hcb.2]
      exact hn

theorem serverError_body_by_debug_witness :
    responseOf (serverError (sampleApp false) sampleStack sampleRequest
        (errorsNew "sql: no rows")) ResponseRecorder.new
      = some (500, "Internal Server Error\n")
    ∧ ¬ containsText "Internal Server Error\n" "sql: no rows"
    ∧ responseOf (serverError (sampleApp true) sampleStack sampleRequest
        (errorsNew "sql: no rows")) ResponseRecorder.new
      = some (500, "sql: no rows\ngoroutine 1 [running]:\nruntime/debug.Stack()\n") :=
  ⟨((serverError_body_by_debug (sampleApp false) sampleStack sampleRequest
      (errorsNew "sql: no rows") ResponseRecorder.new rfl).2 rfl).1,
    fun h =>
      ((serverError_body_by_debug (sampleApp false) sampleStack sampleRequest
        (errorsNew "sql: no rows") ResponseRecorder.new rfl).2 rfl).2.2 (by decide)
        500 "Internal Server Error\n" (by decide) h,
    ((serverError_body_by_debug (sampleApp true) sampleStack sampleRequest
      (errorsNew "sql: no rows") ResponseRecorder.new rfl).1 rfl).1⟩

/-- C6, as the claim states it, fails: on a sample request, in debug mode or
not, the one log entry `serverError` makes holds the error text, the method
and the URI, and the stack trace is in none of its fields. -/
theorem serverError_log_lacks_stack_trace :
    (serverError (sampleApp true) sampleStack sampleRequest
        (errorsNew "sql: no rows")).filter Event.isLog
      = [Event.logError "sql: no rows" ["method", "GET", "uri", "/snippet/view/1"]]
    ∧ (serverError (sampleApp false) sampleStack sampleRequest
        (errorsNew "sql: no rows")).filter Event.isLog
      = [Event.logError "sql: no rows" ["method", "GET", "uri", "/snippet/view/1"]]
    ∧ (Event.logError "sql: no rows"
        ["method", "GET", "uri", "/snippet/view/1"]).logCarries sampleStack = false := by
  decide

/-- C6, amended: for every request, error and debug setting, the first thing
`serverError` does is to make its one log entry, whose message is the error
text and whose attributes are the request method under "method" and the
request URI under "uri" (the stack trace is not among them); everything after
it is a call on the response writer, among them the header write with 500 and
a body write. -/
theorem serverError_logs_first (app : application) (stack : String) (r : Request)
    (err : GoError) :
    (serverError app stack r err).head?
      = some (Event.logError err.Error ["method", r.Method, "uri", r.RequestURI])
    ∧ (serverError app stack r err).filter Event.isLog
      = [Event.logError err.Error ["method", r.Method, "uri", r.RequestURI]]
    ∧ (∀ e ∈ (serverError app stack r err).tail, e.onResponse = true ∧ e.isLog = false)
    ∧ Event.writeHeader 500 ∈ (serverError app stack r err).tail
    ∧ Event.write ((if app.debug then err.Error ++ "\n" ++ stack
        else "Internal Server Error") ++ "\n") ∈ (serverError app stack r err).tail := by
  rw [serverError_trace]
  refine ⟨rfl, rfl, ?_, by simp, by simp⟩
  intro e he
  simp only [List.tail_cons, List.mem_cons, List.mem_singleton, List.not_mem_nil,
    or_false] at he
  rcases he with h | h | h | h | h <;> subst h <;> exact ⟨rfl, rfl⟩

/-- C3: `isAuthenticated` is false when the request context has no value
under the key, false when the value there is not a boolean, and the stored
boolean otherwise. -/
theorem isAuthenticated_spec (isAuthenticatedContextKey : contextKey) (r : Request) :
    (r.Context.lookup isAuthenticatedContextKey = none →
      isAuthenticated isAuthenticatedContextKey r = false)
    ∧ (∀ v, r.Context.lookup isAuthenticatedContextKey = some v →
        (∀ b, v ≠ GoAny.bool b) → isAuthenticated isAuthenticatedContextKey r = false)
    ∧ (∀ b, r.Context.lookup isAuthenticatedContextKey = some (GoAny.bool b) →
        isAuthenticated isAuthenticatedContextKey r = b) := by
  refine ⟨?_, ?_, ?_⟩
  · intro h
    simp [isAuthenticated, Request.ContextValue, h, GoAny.assertBool]
  · intro v h hv
    cases v with
    | bool b => exact absurd rfl (hv b)
    | nil => simp [isAuthenticated, Request.ContextValue, h, GoAny.assertBool]
    | str s => simp [isAuthenticated, Request.ContextValue, h, GoAny.assertBool]
    | int n => simp [isAuthenticated, Request.ContextValue, h, GoAny.assertBool]
    | other t x => simp [isAuthenticated, Request.ContextValue, h, GoAny.assertBool]
  · intro b h
    simp [isAuthenticated, Request.ContextValue, h, GoAny.assertBool]

theorem isAuthenticated_spec_witness :
    isAuthenticated "isAuthenticated" sampleRequest = false
    ∧ isAuthenticated "isAuthenticated"
        { sampleRequest with Context := [("isAuthenticated", GoAny.str "true")] } = false
    ∧ isAuthenticated "isAuthenticated"
        { sampleRequest with Context := [("isAuthenticated", GoAny.bool true)] } = true :=
  ⟨(isAuthenticated_spec "isAuthenticated" sampleRequest).1 (by decide),
    (isAuthenticated_spec "isAuthenticated"
        { sampleRequest with Context := [("isAuthenticated", GoAny.str "true")] }).2.1
      (GoAny.str "true") (by decide) (by decide),
    (isAuthenticated_spec "isAuthenticated"
        { sampleRequest with Context := [("isAuthenticated", GoAny.bool true)] }).2.2
      true (by decide)⟩

/-- C5: `newTemplateData` reads the session key "flash" by one `PopString`:
the Flash field is the string stored before the call, and the empty string
when nothing is stored (or when what is stored is not a string); after the
call the session holds nothing under "flash" and every other key as before;
a second `newTemplateData` on that session returns an empty Flash and leaves
the session as it is. -/
theorem newTemplateData_flash_once (isAuthenticatedContextKey : contextKey)
    (year : Int) (sd : SessionData) (r : Request) :
    newTemplateData isAuthenticatedContextKey year sd r
      = ({ CurrentYear := year,
           Flash := (sd.PopString "flash").1,
           IsAuthenticated := isAuthenticated isAuthenticatedContextKey r,
           CSRFToken := r.csrfToken }, (sd.PopString "flash").2)
    ∧ (∀ s, sd.values.lookup "flash" = some (GoAny.str s) →
        (newTemplateData isAuthenticatedContextKey year sd r).1.Flash = s)
    ∧ (sd.values.lookup "flash" = none →
        (newTemplateData isAuthenticatedContextKey year sd r).1.Flash = ""
        ∧ (newTemplateData isAuthenticatedContextKey year sd r).2 = sd)
    ∧ (∀ v, sd.values.lookup "flash" = some v → (∀ s, v ≠ GoAny.str s) →
        (newTemplateData isAuthenticatedContextKey year sd r).1.Flash = "")
    ∧ (newTemplateData isAuthenticatedContextKey year sd r).2.values.lookup "flash" = none
    ∧ (newTemplateData isAuthenticatedContextKey year sd r).2.Exists "flash" = false
    ∧ (∀ k, k ≠ "flash" →
        (newTemplateData isAuthenticatedContextKey year sd r).2.values.lookup k
          = sd.values.lookup k)
    ∧ (∀ year2,
        (newTemplateData isAuthenticatedContextKey year2
          (newTemplateData isAuthenticatedContextKey year sd r).2 r).1.Flash = ""
        ∧ (newTemplateData isAuthenticatedContextKey year2
          (newTemplateData isAuthenticatedContextKey year sd r).2 r).2
          = (newTemplateData isAuthenticatedContextKey year sd r).2) := by
  have hdef : ∀ (y : Int) (sd0 : SessionData),
      newTemplateData isAuthenticatedContextKey y sd0 r
        = ({ CurrentYear := y,
             Flash := (sd0.PopString "flash").1,
             IsAuthenticated := isAuthenticated isAuthenticatedContextKey r,
             CSRFToken := r.csrfToken }, (sd0.PopString "flash").2) := by
    intro y sd0
    rfl
  have hnone : ∀ sd0 : SessionData, sd0.values.lookup "flash" = none →
      sd0.PopString "flash" = ("", sd0) := by
    intro sd0 h
    simp [SessionData.PopString, SessionData.Pop, h, GoAny.assertString]
  have hafter : (sd.PopString "flash").2.values.lookup "flash" = none := by
    cases hl : sd.values.lookup "flash" with
    | none => rw [hnone sd hl]; exact hl
    | some v =>
      have : (sd.PopString "flash").2.values
          = sd.values.filter fun p => p.1 != "flash" := by
        cases v <;> simp [SessionData.PopString, SessionData.Pop, hl, GoAny.assertString]
      rw [this]
      exact lookup_filter_self "flash" sd.values
  refine ⟨hdef year sd, ?_, ?_, ?_, ?_, ?_, ?_, ?_⟩
  · intro s h
    simp [hdef, SessionData.PopString, SessionData.Pop, h, GoAny.assertString]
  · intro h
    simp [hdef, hnone sd h]
  · intro v h hv
    cases v with
    | str s => exact absurd rfl (hv s)
    | nil => simp [hdef, SessionData.PopString, SessionData.Pop, h, GoAny.assertString]
    | bool b => simp [hdef, SessionData.PopString, SessionData.Pop, h, GoAny.assertString]
    | int n => simp [hdef, SessionData.PopString, SessionData.Pop, h, GoAny.assertString]
    | other t x =>
      simp [hdef, SessionData.PopString, SessionData.Pop, h, GoAny.assertString]
  · rw [hdef]
    exact hafter
  · rw [hdef]
    simp [SessionData.Exists, hafter]
  · intro k hk
    rw [hdef]
    cases hl : sd.values.lookup "flash" with
    | none => rw [hnone sd hl]
    | some v =>
      have : (sd.PopString "flash").2.values
          = sd.values.filter fun p => p.1 != "flash" := by
        cases v <;> simp [SessionData.PopString, SessionData.Pop, hl, GoAny.assertString]
      simp only [this]
      exact lookup_filter_other "flash" k hk sd.values
  · intro year2
    rw [hdef year sd, hdef year2]
    simp [hnone _ hafter]

theorem newTemplateData_flash_once_witness :
    (newTemplateData "isAuthenticated" 2024 sampleSession sampleRequest).1.Flash
      = "Snippet successfully created!"
    ∧ (newTemplateData "isAuthenticated" 2024 sampleSession sampleRequest).2
      = { values := [("authenticatedUserID", GoAny.int 7)],
          status := SessionStatus.Modified }
    ∧ (newTemplateData "isAuthenticated" 2024
        (newTemplateData "isAuthenticated" 2024 sampleSession sampleRequest).2
        sampleRequest).1.Flash = "" :=
  ⟨(newTemplateData_flash_once "isAuthenticated" 2024 sampleSession sampleRequest).2.1
      "Snippet successfully created!" (by decide),
    by decide, by decide⟩

/-- C4: when the form of the request parses, `decodePostForm` calls the
decoder once on the destination and the parsed post form; it returns nil when
the decoder returns nil, returns the decoder's error itself when that error
neither is nor wraps an invalid-decoder error, and panics (with that error)
exactly when the decoder's error is or wraps an invalid-decoder error. -/
theorem decodePostForm_decoder_result (app : application) (r : Request) (dst : GoAny)
    (hparse : r.parseFormErr = none) :
    (decodePostForm app r dst).decodeCalls = [(dst, r.parsedPostForm)]
    ∧ ((app.formDecoder dst r.parsedPostForm).2 = none →
        (decodePostForm app r dst).outcome = Outcome.returned none)
    ∧ (∀ err, (app.formDecoder dst r.parsedPostForm).2 = some err →
        ¬ WrapsInvalidDecoderError err →
        (decodePostForm app r dst).outcome = Outcome.returned (some err))
    ∧ (∀ err, (app.formDecoder dst r.parsedPostForm).2 = some err →
        WrapsInvalidDecoderError err →
        (decodePostForm app r dst).outcome = Outcome.panicked err)
    ∧ ((∃ v, (decodePostForm app r dst).outcome = Outcome.panicked v) ↔
        ∃ err, (app.formDecoder dst r.parsedPostForm).2 = some err ∧
          WrapsInvalidDecoderError err) := by
  have hpf : r.ParseForm = ({ r with PostForm := r.parsedPostForm }, none) := by
    simp [Request.ParseForm, hparse]
  cases hdec : app.formDecoder dst r.parsedPostForm with
  | mk dst1 res =>
    cases res with
    | none =>
      have hout : decodePostForm app r dst
          = { outcome := Outcome.returned none,
              request := { r with PostForm := r.parsedPostForm },
              dst := dst1, decodeCalls := [(dst, r.parsedPostForm)] } := by
        simp [decodePostForm, hpf, hdec]
      simp [hout]
    | some err =>
      by_cases hw : WrapsInvalidDecoderError err
      · have has : errorsAsInvalidDecoderError err = true := errorsAs_of_wraps err hw
        have hout : decodePostForm app r dst
            = { outcome := Outcome.panicked err,
                request := { r with PostForm := r.parsedPostForm },
                dst := dst1, decodeCalls := [(dst, r.parsedPostForm)] } := by
          simp [decodePostForm, hpf, hdec, has]
        simp [hout, hw]
      · have has : errorsAsInvalidDecoderError err = false := by
          cases h : errorsAsInvalidDecoderError err with
          | false => rfl
          | true => exact absurd (wraps_of_errorsAs err h) hw
        have hout : decodePostForm app r dst
            = { outcome := Outcome.returned (some err),
                request := { r with PostForm := r.parsedPostForm },
                dst := dst1, decodeCalls := [(dst, r.parsedPostForm)] } := by
          simp [decodePostForm, hpf, hdec, has]
        simp [hout, hw]

theorem decodePostForm_decoder_result_witness :
    (decodePostForm (decoderApp none) sampleRequest (GoAny.other "*form" "")).outcome
      = Outcome.returned none
    ∧ (decodePostForm (decoderApp (some (errorsNew "title: invalid value")))
        sampleRequest (GoAny.other "*form" "")).outcome
      = Outcome.returned (some (errorsNew "title: invalid value"))
    ∧ (decodePostForm (decoderApp (some (.mk "decode" false [invalidDecoderError])))
        sampleRequest (GoAny.other "form" "")).outcome
      = Outcome.panicked (.mk "decode" false [invalidDecoderError]) :=
  ⟨(decodePostForm_decoder_result (decoderApp none) sampleRequest
      (GoAny.other "*form" "") rfl).2.1 rfl,
    (decodePostForm_decoder_result (decoderApp (some (errorsNew "title: invalid value")))
      sampleRequest (GoAny.other "*form" "") rfl).2.2.1
      (errorsNew "title: invalid value") rfl
      (fun h => by
        have := errorsAs_of_wraps _ h
        simp [errorsNew, errorsAsInvalidDecoderError, errorsAsInvalidDecoderErrorAny]
          at this),
    (decodePostForm_decoder_result
      (decoderApp (some (.mk "decode" false [invalidDecoderError])))
      sampleRequest (GoAny.other "form" "") rfl).2.2.2.1
      (.mk "decode" false [invalidDecoderError]) rfl
      (WrapsInvalidDecoderError.inside "decode" false [invalidDecoderError]
        invalidDecoderError (List.mem_singleton.mpr rfl)
        (WrapsInvalidDecoderError.here _ []))⟩

/-- C10: when the form of the request does not parse, `decodePostForm`
returns the parsing error itself; it makes no call to the decoder, whatever
the decoder is, leaves the destination as it was, and does not panic. -/
theorem decodePostForm_parse_failure (app : application) (r : Request) (dst : GoAny)
    (err : GoError) (hparse : r.parseFormErr = some err) :
    (decodePostForm app r dst).outcome = Outcome.returned (some err)
    ∧ (decodePostForm app r dst).decodeCalls = []
    ∧ (decodePostForm app r dst).dst = dst
    ∧ (∀ v, (decodePostForm app r dst).outcome ≠ Outcome.panicked v)
    ∧ (∀ app2 : application, decodePostForm app2 r dst = decodePostForm app r dst) := by
  have hpf : r.ParseForm = ({ r with PostForm := r.parsedPostForm }, some err) := by
    simp [Request.ParseForm, hparse]
  have hout : ∀ a : application, decodePostForm a r dst
      = { outcome := Outcome.returned (some err),
          request := { r with PostForm := r.parsedPostForm },
          dst := dst, decodeCalls := [] } := by
    intro a
    simp [decodePostForm, hpf]
  refine ⟨by rw [hout], by rw [hout], by rw [hout], ?_, ?_⟩
  · intro v
    rw [hout]
    simp
  · intro app2
    rw [hout, hout]

theorem decodePostForm_parse_failure_witness :
    (decodePostForm (decoderApp (some invalidDecoderError)) badFormRequest
        (GoAny.other "form" "")).outcome
      = Outcome.returned (some (errorsNew "invalid semicolon separator in query"))
    ∧ (decodePostForm (decoderApp (some invalidDecoderError)) badFormRequest
        (GoAny.other "form" "")).decodeCalls = [] :=
  ⟨(decodePostForm_parse_failure (decoderApp (some invalidDecoderError)) badFormRequest
      (GoAny.other "form" "") (errorsNew "invalid semicolon separator in query") rfl).1,
    (decodePostForm_parse_failure (decoderApp (some invalidDecoderError)) badFormRequest
      (GoAny.other "form" "") (errorsNew "invalid semicolon separator in query") rfl).2.1⟩

end LetsGo
